import Mathlib

/-!
Verification of the bulker consumer runtime: a shallow embedding of
`bulkerlib/options.go`, `bulkerapp/app/abstract_batch_consumer.go`,
`bulkerapp/app/retry_consumer.go` and the stream-consumer failure path,
with theorems checking the natural-language specification against it.

Go machine integers are modelled by `Int` (no arithmetic here comes close
to overflow), Go strings by `String`, Kafka header lists by association
lists, and the float64 retry-fraction arithmetic by rationals with the
truncating `int(...)` conversion made explicit.
-/

namespace Bulker

/-! ## Data model: BatchCounters (abstract_batch_consumer.go) -/

/-- `BatchCounters` from abstract_batch_consumer.go: per-batch outcome
counters. Go `int` fields are modelled by `Nat`; the spec declares them
monotonic non-negative and they are only ever incremented. -/
structure BatchCounters where
  consumed : Nat
  skipped : Nat
  processed : Nat
  notReadyReadded : Nat
  retryScheduled : Nat
  deadLettered : Nat
  failed : Nat
  deriving Repr, DecidableEq

/-- The zero value `BatchCounters{}` of Go. -/
def BatchCounters.empty : BatchCounters := ⟨0, 0, 0, 0, 0, 0, 0⟩

/-- `accumulate` from abstract_batch_consumer.go, transcribed field by
field exactly as the source writes it; the source does NOT add the
`failed` field. -/
def BatchCounters.accumulate (bs batchStats : BatchCounters) : BatchCounters :=
  { bs with
    consumed := bs.consumed + batchStats.consumed
    skipped := bs.skipped + batchStats.skipped
    processed := bs.processed + batchStats.processed
    notReadyReadded := bs.notReadyReadded + batchStats.notReadyReadded
    retryScheduled := bs.retryScheduled + batchStats.retryScheduled
    deadLettered := bs.deadLettered + batchStats.deadLettered }

/-! ## Stream options (bulkerlib/options.go) -/

/-- `BulkMode` values referenced by options.go (`Stream`, `Batch`,
`Unknown`). -/
inductive BulkMode where
  | stream
  | batch
  | unknown
  deriving Repr, DecidableEq

/-- Universe of raw (Go `any`) values fed to option parsers: the cases the
parsers in options.go distinguish, plus a catch-all for every other
dynamic type. -/
inductive RawValue where
  | str (s : String)
  | strList (l : List String)
  | int (i : Int)
  | bool (b : Bool)
  | other
  deriving Repr, DecidableEq

/-- Universe of parsed option values stored in `StreamOptions.valuesMap`
(the Go map holds `any`; these are the value types the embedded options
store). -/
inductive OptValue where
  | mode (m : BulkMode)
  | int (i : Int)
  | strSet (s : Finset String)
  | str (s : String)
  deriving DecidableEq

/-- `StreamOptions` from options.go: the `valuesMap` bag written only
through mutators. The Go map is modelled by an association list with
replace-on-write. -/
structure StreamOptions where
  valuesMap : List (String × OptValue)
  deriving DecidableEq

/-- The fresh `StreamOptions{}` value. -/
def StreamOptions.empty : StreamOptions := ⟨[]⟩

/-- Lookup in the `valuesMap` (Go map read: first binding wins, there is
at most one per key). -/
def StreamOptions.getValue (so : StreamOptions) (k : String) : Option OptValue :=
  (so.valuesMap.find? (fun kv => kv.1 == k)).map (fun kv => kv.2)

/-- Map write used by `ImplementationOption.Set`: replace the binding for
the key, or append it. -/
def setAssoc (l : List (String × OptValue)) (k : String) (v : OptValue) :
    List (String × OptValue) :=
  match l with
  | [] => [(k, v)]
  | kv :: rest => if kv.1 = k then (k, v) :: rest else kv :: setAssoc rest k v

/-- `ImplementationOption.Set` from options.go specialised to the
embedded value universe. -/
def StreamOptions.setValue (so : StreamOptions) (k : String) (v : OptValue) : StreamOptions :=
  ⟨setAssoc so.valuesMap k v⟩

/-- A parsed option mutator (`StreamOption` in options.go). -/
def Mutator : Type := StreamOptions → StreamOptions

/-- `ModeOption.ParseFunc` from options.go: returns the parsed mode
together with the Go `error` result (`none` = nil error). Unrecognized
strings yield `(Unknown, non-nil error)`; non-strings yield
`(Unknown, non-nil error)` with a type-mismatch message. -/
def modeParseFunc : RawValue → BulkMode × Option String
  | .str v =>
    if v = "stream" then (.stream, none)
    else if v = "batch" then (.batch, none)
    else (.unknown, some ("unknown mode: " ++ v))
  | _ => (.unknown, some "invalid value type of mode option")

/-- `ImplementationOption.Parse` for `ModeOption` (options.go): a non-nil
error from `ParseFunc` makes `Parse` fail; on success the returned mutator
installs the parsed value under the option key. -/
def modeOptionParse (v : RawValue) : Except String Mutator :=
  match modeParseFunc v with
  | (val, none) => .ok (fun so => so.setValue "mode" (.mode val))
  | (_, some e) => .error ("failed to parse mode option: " ++ e)

/-- `PrimaryKeyOption.Get` (options.go): the Go type assertion on the map
entry, falling back to the default empty set when the key is unset or
holds a value of another type. `utils.Set` of strings is modelled by
`Finset String`. -/
def primaryKeyGet (so : StreamOptions) : Finset String :=
  match so.getValue "primaryKey" with
  | some (.strSet s) => s
  | _ => ∅

/-- Store a primary-key set (via `PrimaryKeyOption`-keyed `Set`). -/
def primaryKeySet (so : StreamOptions) (s : Finset String) : StreamOptions :=
  so.setValue "primaryKey" (.strSet s)

/-- `withPrimaryKey` from options.go: if the current set is empty install
`NewSet(pkFields...)`, otherwise `PutAll` the fields into the existing
set (the in-place Go map mutation is modelled by re-storing the union). -/
def withPrimaryKey (pkFields : List String) : Mutator := fun options =>
  let set := primaryKeyGet options
  if set = ∅ then primaryKeySet options pkFields.toFinset
  else primaryKeySet options (set ∪ pkFields.toFinset)

/-- `PrimaryKeyOption.AdvancedParseFunc` from options.go: a string slice
or a single string is accepted, the empty string yields a mutator that
does nothing, and any other dynamic type is a parse error. -/
def primaryKeyOptionParse : RawValue → Except String Mutator
  | .strList v => .ok (withPrimaryKey v)
  | .str v =>
    if v = "" then .ok (fun options => options)
    else .ok (withPrimaryKey [v])
  | _ => .error "failed to parse primaryKey option: incorrect type"

/-- Apply a parse result to a `StreamOptions` (ok: run the mutator). -/
def applyParsed (r : Except String Mutator) (so : StreamOptions) : StreamOptions :=
  match r with
  | .ok f => f so
  | .error _ => so

/-! ## Effective batch sizes (ConsumeAll, abstract_batch_consumer.go) -/

/-- Go `int(x)` on a non-integral value truncates toward zero; model on
rationals. -/
def ratTrunc (x : ℚ) : Int :=
  if 0 ≤ x then ⌊x⌋ else ⌈x⌉

/-- Batch-size resolution from `ConsumeAll` (abstract_batch_consumer.go
lines 228-236): the option value is used when positive, otherwise the
runtime default `BatchRunnerDefaultBatchSize`; the retry batch size is
the option value when positive, otherwise
`int(float64(maxBatchSize) * BatchRunnerDefaultRetryBatchFraction)`
(float64 arithmetic modelled by exact rationals). -/
def resolveBatchSizes (batchSizeOpt retryBatchSizeOpt defaultBatchSize : Int)
    (retryFraction : ℚ) : Int × Int :=
  let maxBatchSize := if batchSizeOpt ≤ 0 then defaultBatchSize else batchSizeOpt
  let retryBatchSize :=
    if retryBatchSizeOpt ≤ 0 then ratTrunc ((maxBatchSize : ℚ) * retryFraction)
    else retryBatchSizeOpt
  (maxBatchSize, retryBatchSize)

/-! ## Partition-count guard (NewAbstractBatchConsumer) -/

/-- The metadata scan of `NewAbstractBatchConsumer` (abstract_batch_consumer.go
lines 93-101): walk the topics of the metadata reply; at the first entry
for the subscribed topic, fail when it has more than one partition, and
stop scanning either way. Metadata entries are `(topic name, partition
count)` pairs. -/
def checkPartitionsCount : List (String × Nat) → String → Except String Unit
  | [], _ => .ok ()
  | (t, parts) :: rest, topicId =>
    if t = topicId then
      if parts > 1 then
        .error "Topic has more than 1 partition. Batch Consumer supports only topics with a single partition"
      else .ok ()
    else checkPartitionsCount rest topicId

/-- First metadata entry for a topic (what the scan reacts to). -/
def metaPartitions : List (String × Nat) → String → Option Nat
  | [], _ => none
  | (t, parts) :: rest, topicId =>
    if t = topicId then some parts else metaPartitions rest topicId

/-! ## Kafka messages, headers and topic ids -/

/-- Header-key constants from abstract_batch_consumer.go. -/
def retryTimeHeader : String := "retry_time"

/-- The `retries` header key. -/
def retriesCountHeader : String := "retries"

/-- The `original_topic` header key. -/
def originalTopicHeader : String := "original_topic"

/-- A Kafka message as the consumers see it: its partition offset, key,
payload and string headers. -/
structure KMessage where
  offset : Int
  key : String
  value : String
  headers : List (String × String)
  deriving Repr, DecidableEq

/-- Modelled from the spec: `GetKafkaHeader` (kafka helper, not under
src/) reads the first header with the given key as a UTF-8 string and
yields the empty string when the header is absent. -/
def getKafkaHeader (m : KMessage) (k : String) : String :=
  match m.headers.find? (fun h => h.1 == k) with
  | some h => h.2
  | none => ""

/-- Decimal digit value of a character, `none` for non-digits. -/
def decDigit? (c : Char) : Option Nat :=
  if '0' ≤ c ∧ c ≤ '9' then some (c.toNat - '0'.toNat) else none

/-- Parse a non-empty all-digit run into a natural number. -/
def decNatAux : List Char → Nat → Option Nat
  | [], acc => some acc
  | c :: cs, acc =>
    match decDigit? c with
    | some d => decNatAux cs (acc * 10 + d)
    | none => none

/-- Parse a decimal integer with an optional sign, rejecting the empty
string and any non-digit character. -/
def parseDecInt (s : String) : Option Int :=
  match s.data with
  | [] => none
  | '-' :: cs =>
    match cs with
    | [] => none
    | _ => (decNatAux cs 0).map (fun n => -(n : Int))
  | '+' :: cs =>
    match cs with
    | [] => none
    | _ => (decNatAux cs 0).map (fun n => (n : Int))
  | cs => (decNatAux cs 0).map (fun n => (n : Int))

/-- Modelled from the spec: `GetKafkaIntHeader` (kafka helper, not under
src/) parses the `retries` header as a decimal integer; a missing or
malformed header is a parse error (`none`). -/
def getKafkaIntHeader (m : KMessage) (k : String) : Option Int :=
  parseDecInt (getKafkaHeader m k)

/-- Modelled from the spec: a parsed Go `time.Time` value — whether it is
the zero time, and its instant on an abstract integer timeline. -/
structure KTime where
  isZero : Bool
  instant : Int
  deriving Repr, DecidableEq

/-- The `retry` topic-mode tag. -/
def retryTopicMode : String := "retry"

/-- The `dead` topic-mode tag. -/
def deadTopicMode : String := "dead"

/-- Modelled from the spec: the for-all-tables sentinel token of topic
ids. -/
def allTablesToken : String := "_all_"

/-- Modelled from the spec: `MakeTopicId` (topic helper, not under src/)
deterministically and reversibly encodes `(destinationId, modeTag,
tableName)` into a topic name. -/
def makeTopicId (destinationId mode tableName : String) : String :=
  "in.id." ++ destinationId ++ ".m." ++ mode ++ ".t." ++ tableName

/-! ## Retry consumer batch function (retry_consumer.go) -/

/-- Result of one `ReadMessage` call of the mocked bus. -/
inductive ReadResult where
  | timedOut
  | fatal
  | msg (m : KMessage)

/-- Where the batch error of `processBatchImpl` came from. `queryFailed`
is the unchecked error of `QueryWatermarkOffsets` that can survive in the
named return value. -/
inductive BatchErr where
  | queryFailed
  | readFailed
  | beginTxFailed
  | produceFailed
  | groupMetadataFailed
  | sendOffsetsFailed
  | commitFailed
  deriving Repr, DecidableEq

/-- A message handed to `producer.Produce`. -/
structure ProducedMsg where
  topic : String
  key : String
  value : String
  headers : List (String × String)
  deriving Repr, DecidableEq

/-- The mocked environment of one `processBatchImpl` run: the bus replies
and error injections, the clock, and the consumer's configuration
(`MessagesRetryCount`, destination id, own topic id). `parseTime` is the
abstract ISO-8601 parse of `GetKafkaTimeHeader` (modelled from the spec;
`none` is a parse failure). -/
structure RetryEnv where
  queryErr : Bool
  highOffset : Int
  reads : Nat → ReadResult
  beginTxOk : Bool
  produceOk : Nat → Bool
  groupMetadataOk : Bool
  sendOffsetsOk : Bool
  commitOk : Bool
  retired : Nat → Bool
  parseTime : String → Option KTime
  now : Int
  messagesRetryCount : Int
  destinationId : String
  topicId : String

/-- `isTimeToRetry` from retry_consumer.go: parse failure, the zero time,
or a deadline already passed all mean the message is eligible now. -/
def isTimeToRetry (env : RetryEnv) (m : KMessage) : Bool :=
  match env.parseTime (getKafkaHeader m retryTimeHeader) with
  | none => true
  | some t => t.isZero || decide (env.now > t.instant)

/-- Per-message classification outcome inside the batch loop of
`processBatchImpl` (retry_consumer.go lines 93-108): target topic, the
extra `retry_time` header of the not-ready case, the `retries` value to
serialize, and the single-message counter delta. -/
structure ClassifyResult where
  topic : String
  extraHeaders : List (String × String)
  newRetries : Int
  single : BatchCounters
  deriving DecidableEq

/-- The classification of retry_consumer.go lines 93-108: exhausted
retries go to the destination's dead topic with the count unchanged; a
future `retry_time` requeues to the consumer's own retry topic carrying
the original `retry_time` header bytes and the count unchanged; otherwise
the count is incremented and the message goes back to its original
topic. -/
def classifyMessage (env : RetryEnv) (m : KMessage) (originalTopic : String)
    (retries : Int) : ClassifyResult :=
  if retries ≥ env.messagesRetryCount then
    { topic := makeTopicId env.destinationId deadTopicMode allTablesToken
      extraHeaders := []
      newRetries := retries
      single := { BatchCounters.empty with deadLettered := 1 } }
  else if ¬ isTimeToRetry env m then
    { topic := env.topicId
      extraHeaders := [(retryTimeHeader, getKafkaHeader m retryTimeHeader)]
      newRetries := retries
      single := { BatchCounters.empty with notReadyReadded := 1 } }
  else
    { topic := originalTopic
      extraHeaders := []
      newRetries := retries + 1
      single := { BatchCounters.empty with retryScheduled := 1 } }

/-- The mutable locals of the batch loop in `processBatchImpl`: counters,
the first and last consumed positions, whether a producer transaction is
open, the named error value (the unchecked `QueryWatermarkOffsets`
result), the `nextBatch` named return, the messages handed to the
producer so far, and the loop/read/produce indices. -/
structure LoopState where
  counters : BatchCounters
  firstPosition : Option Int
  lastPosition : Option Int
  txOpened : Bool
  namedErr : Option BatchErr
  nextBatch : Bool
  produced : List ProducedMsg
  readIdx : Nat
  produceIdx : Nat
  i : Nat

/-- What `processBatchImpl` has computed when control reaches a `return`
statement, before the deferred cleanup closure runs: the three return
values plus the locals the closure reads (`firstPosition`, `txOpened`)
and the effects of the commit section. -/
structure BodyResult where
  counters : BatchCounters
  nextBatch : Bool
  err : Option BatchErr
  produced : List ProducedMsg
  firstPosition : Option Int
  lastPosition : Option Int
  txOpened : Bool
  committed : Bool
  committedOffset : Option Int

/-- A `return` of the current named values (Go naked `return`): used by
the retired check and by the no-transaction exit. -/
def nakedReturn (st : LoopState) : BodyResult :=
  { counters := st.counters, nextBatch := st.nextBatch, err := st.namedErr
    produced := st.produced, firstPosition := st.firstPosition
    lastPosition := st.lastPosition, txOpened := st.txOpened
    committed := false, committedOffset := none }

/-- The code after the batch loop (retry_consumer.go lines 121-139): if no
transaction was opened return the named values; otherwise fetch the group
metadata, send `lastPosition+1` into the transaction, and commit, each
failure returning zero counters, `nextBatch=false` and its error. -/
def finishLoop (env : RetryEnv) (st : LoopState) : BodyResult :=
  if st.txOpened then
    if env.groupMetadataOk then
      if env.sendOffsetsOk then
        if env.commitOk then
          { counters := st.counters, nextBatch := st.nextBatch, err := none
            produced := st.produced, firstPosition := st.firstPosition
            lastPosition := st.lastPosition, txOpened := true
            committed := true, committedOffset := some (st.lastPosition.getD 0 + 1) }
        else
          { counters := BatchCounters.empty, nextBatch := false
            err := some .commitFailed, produced := st.produced
            firstPosition := st.firstPosition, lastPosition := st.lastPosition
            txOpened := true, committed := false, committedOffset := none }
      else
        { counters := BatchCounters.empty, nextBatch := false
          err := some .sendOffsetsFailed, produced := st.produced
          firstPosition := st.firstPosition, lastPosition := st.lastPosition
          txOpened := true, committed := false, committedOffset := none }
    else
      { counters := BatchCounters.empty, nextBatch := false
        err := some .groupMetadataFailed, produced := st.produced
        firstPosition := st.firstPosition, lastPosition := st.lastPosition
        txOpened := true, committed := false, committedOffset := none }
  else nakedReturn st

/-- Advance to the next loop iteration. -/
def advanceLoop (st : LoopState) : LoopState :=
  { st with i := st.i + 1 }

/-- Classification and produce for one consumed message (retry_consumer.go
lines 78-119). A missing `original_topic` header or an unparseable
`retries` header increments only the local `singleCount` (which the Go
`continue` then discards) and moves on; otherwise the message is
classified, handed to the producer with headers
`extra ++ [original_topic, retries]`, and on produce success the single
counters are accumulated. A produce failure returns the current counters
with `nextBatch=false`. -/
def classifyAndProduce (env : RetryEnv) (st : LoopState) (m : KMessage) :
    LoopState ⊕ BodyResult :=
  let originalTopic := getKafkaHeader m originalTopicHeader
  if originalTopic = "" then
    .inl (advanceLoop st)
  else
    match getKafkaIntHeader m retriesCountHeader with
    | none => .inl (advanceLoop st)
    | some retries =>
      let c := classifyMessage env m originalTopic retries
      let headers := c.extraHeaders ++
        [(originalTopicHeader, originalTopic), (retriesCountHeader, toString c.newRetries)]
      if env.produceOk st.produceIdx then
        .inl (advanceLoop
          { st with
            produced := st.produced ++ [⟨c.topic, m.key, m.value, headers⟩]
            counters := st.counters.accumulate c.single
            produceIdx := st.produceIdx + 1 })
      else
        .inr { counters := st.counters, nextBatch := false, err := some .produceFailed
               produced := st.produced, firstPosition := st.firstPosition
               lastPosition := st.lastPosition, txOpened := st.txOpened
               committed := false, committedOffset := none }

/-- Handling of one successfully read message (retry_consumer.go lines
68-119): count it, remember its position, open the producer transaction
on the first one (a `BeginTransaction` failure returns zero counters and
that error), then classify and produce. -/
def stepMessage (env : RetryEnv) (st : LoopState) (m : KMessage) :
    LoopState ⊕ BodyResult :=
  let counters1 := { st.counters with consumed := st.counters.consumed + 1 }
  if st.counters.consumed + 1 = 1 then
    if env.beginTxOk then
      classifyAndProduce env
        { st with
          counters := counters1
          firstPosition := some m.offset
          lastPosition := some m.offset
          txOpened := true } m
    else
      .inr { counters := BatchCounters.empty, nextBatch := false
             err := some .beginTxFailed, produced := st.produced
             firstPosition := some m.offset, lastPosition := some m.offset
             txOpened := false, committed := false, committedOffset := none }
  else
    classifyAndProduce env
      { st with counters := counters1, lastPosition := some m.offset } m

/-- The batch loop of `processBatchImpl` (retry_consumer.go lines 48-120),
with the remaining iteration count as fuel: a set retired flag returns
the named values; reaching the high-watermark offset or a read timeout
ends the batch with `nextBatch=false`; a fatal read error returns zero
counters and the read error; a message is handled by `stepMessage`. -/
def runLoop (env : RetryEnv) : Nat → LoopState → BodyResult
  | 0, st => finishLoop env st
  | fuel + 1, st =>
    if env.retired st.i then nakedReturn st
    else if st.lastPosition = some (env.highOffset - 1) then
      finishLoop env { st with nextBatch := false }
    else
      match env.reads st.readIdx with
      | .timedOut => finishLoop env { st with nextBatch := false }
      | .fatal =>
        { counters := BatchCounters.empty, nextBatch := false
          err := some .readFailed, produced := st.produced
          firstPosition := st.firstPosition, lastPosition := st.lastPosition
          txOpened := st.txOpened, committed := false, committedOffset := none }
      | .msg m =>
        match stepMessage env { st with readIdx := st.readIdx + 1 } m with
        | .inl st2 => runLoop env fuel st2
        | .inr r => r
termination_by structural fuel st => fuel

/-- The observable outcome of a whole `processBatchImpl` call, after the
deferred cleanup: return values, produced messages, the seeks performed,
and whether the transaction was aborted or committed. -/
structure BatchResult where
  counters : BatchCounters
  nextBatch : Bool
  err : Option BatchErr
  produced : List ProducedMsg
  firstPosition : Option Int
  committed : Bool
  committedOffset : Option Int
  seeks : List Int
  aborted : Bool
  deriving DecidableEq

/-- The deferred cleanup of `processBatchImpl` (retry_consumer.go lines
33-44): when the function returns a non-nil error, seek back to the first
consumed position (when one exists), abort the transaction when one was
opened, and force `nextBatch=false`. -/
def applyCleanup (b : BodyResult) : BatchResult :=
  match b.err with
  | some e =>
    { counters := b.counters, nextBatch := false, err := some e
      produced := b.produced, firstPosition := b.firstPosition
      committed := b.committed, committedOffset := b.committedOffset
      seeks := (match b.firstPosition with | some p => [p] | none => [])
      aborted := b.txOpened }
  | none =>
    { counters := b.counters, nextBatch := b.nextBatch, err := none
      produced := b.produced, firstPosition := b.firstPosition
      committed := b.committed, committedOffset := b.committedOffset
      seeks := [], aborted := false }

/-- The locals right before the batch loop starts: `nextBatch` has been
set to `true`, and the named error still holds the unchecked
`QueryWatermarkOffsets` result. -/
def initLoopState (env : RetryEnv) : LoopState :=
  { counters := BatchCounters.empty, firstPosition := none
    lastPosition := none, txOpened := false
    namedErr := if env.queryErr then some .queryFailed else none
    nextBatch := true, produced := [], readIdx := 0, produceIdx := 0, i := 0 }

/-- `processBatchImpl` from retry_consumer.go: run the batch loop for up
to `retryBatchSize` messages and apply the deferred cleanup to whatever
it returns. -/
def processBatchImpl (env : RetryEnv) (retryBatchSize : Nat) : BatchResult :=
  applyCleanup (runLoop env retryBatchSize (initLoopState env))

/-! ## Stream consumer failure path (stream consumer source) -/

/-- The failure path of `StreamConsumer.start`: on a message error, pick
the destination's retry topic, or its dead topic once the parsed
`retries` header (0 on a parse failure) has reached `MessagesRetryCount`;
produce the original payload there with `retries` (unchanged),
`original_topic` (the consumer's own topic) and a fresh `retry_time`
computed from the backoff of attempt `retries+1`. Returns the produced
message and the outcome status label. -/
def streamFailurePath (destinationId topicId : String) (messagesRetryCount : Int)
    (m : KMessage) (backoffISO : Int → String) : ProducedMsg × String :=
  let retries := (getKafkaIntHeader m retriesCountHeader).getD 0
  let deadLetter := retries ≥ messagesRetryCount
  let failedTopic :=
    if deadLetter then makeTopicId destinationId deadTopicMode allTablesToken
    else makeTopicId destinationId retryTopicMode allTablesToken
  let status := if deadLetter then "deadLettered" else "retryScheduled"
  (⟨failedTopic, m.key, m.value,
    [(retriesCountHeader, toString retries), (originalTopicHeader, topicId),
     (retryTimeHeader, backoffISO (retries + 1))]⟩, status)

/-! ## ConsumeAll and the consumer state machine
(abstract_batch_consumer.go) -/

/-- The `{retired, idle, paused}` flags of an `AbstractBatchConsumer`,
plus the closed flag set when a retired idle consumer closes itself. -/
structure ConsumerState where
  retired : Bool
  idle : Bool
  paused : Bool
  closed : Bool
  deriving Repr, DecidableEq

/-- `Retire` from abstract_batch_consumer.go: store `true` into the
retired flag (nothing in the source ever stores `false`). -/
def retire (st : ConsumerState) : ConsumerState :=
  { st with retired := true }

/-- `pause` from abstract_batch_consumer.go, restricted to its effect on
the consumer flags: a retired idle consumer closes itself; otherwise the
paused flag is set (a no-op when already set). -/
def pauseConsumer (st : ConsumerState) : ConsumerState :=
  if st.idle && st.retired then { st with closed := true }
  else { st with paused := true }

/-- The mocked environment of one `ConsumeAll` call: whether the
repository still has the destination, the destination's size options and
the runtime defaults, the batch function's result per batch number, and
the retired flag as loaded at the top of each loop iteration. -/
structure ConsumeEnv where
  destinationPresent : Bool
  batchSizeOpt : Int
  retryBatchSizeOpt : Int
  defaultBatchSize : Int
  retryFraction : ℚ
  batch : Nat → Int → Int → BatchCounters × Bool × Option String
  retiredDuring : Nat → Bool

/-- The observable outcome of a `ConsumeAll` call. -/
structure ConsumeAllResult where
  counters : BatchCounters
  err : Option String
  leased : Bool
  batchCalls : Nat
  finalState : ConsumerState
  fuelExhausted : Bool
  deriving DecidableEq

/-- The batch loop of `ConsumeAll` (abstract_batch_consumer.go lines
238-255) with fuel bounding the number of batches: stop with the
accumulated counters when the retired flag is observed; otherwise run the
batch function, accumulate its counters, and either continue or return
its error when it reports no next batch. Yields `(counters, error,
batch-function calls, fuel ran out)`. -/
def consumeLoop (env : ConsumeEnv) (maxBatchSize retryBatchSize : Int) :
    Nat → Nat → BatchCounters → BatchCounters × Option String × Nat × Bool
  | 0, _, acc => (acc, none, 0, true)
  | fuel + 1, n, acc =>
    if env.retiredDuring n then (acc, none, 0, false)
    else
      let res := env.batch n maxBatchSize retryBatchSize
      let acc2 := acc.accumulate res.1
      if res.2.1 then
        let rest := consumeLoop env maxBatchSize retryBatchSize fuel (n + 1) acc2
        (rest.1, rest.2.1, rest.2.2.1 + 1, rest.2.2.2)
      else (acc2, res.2.2, 1, false)
termination_by structural fuel n acc => fuel

/-- `ConsumeAll` from abstract_batch_consumer.go (lines 188-256): a
retired consumer returns empty counters and an error at once, before
touching the idle flag, the repository or the bus; otherwise the idle
flag is cleared, the destination leased (a missing destination retires
the consumer and errors), the effective batch sizes resolved, the batch
loop run, and on every non-retired exit the deferred block restores
`idle=true` and pauses. -/
def consumeAll (st : ConsumerState) (env : ConsumeEnv) (fuel : Nat) :
    ConsumeAllResult :=
  if st.retired then
    { counters := BatchCounters.empty, err := some "Consumer is retired"
      leased := false, batchCalls := 0, finalState := st, fuelExhausted := false }
  else
    let stBusy : ConsumerState := { st with idle := false }
    if env.destinationPresent then
      let sizes := resolveBatchSizes env.batchSizeOpt env.retryBatchSizeOpt
        env.defaultBatchSize env.retryFraction
      let res := consumeLoop env sizes.1 sizes.2 fuel 1 BatchCounters.empty
      { counters := res.1, err := res.2.1, leased := true
        batchCalls := res.2.2.1
        finalState := pauseConsumer { stBusy with idle := true }
        fuelExhausted := res.2.2.2 }
    else
      let stRetired := { stBusy with retired := true }
      { counters := BatchCounters.empty, err := some "destination not found"
        leased := false, batchCalls := 0
        finalState := pauseConsumer { stRetired with idle := true }
        fuelExhausted := false }

/-! ## Theorems -/

/-- Claim C1, counterexample: with `batchSize` option 5, runtime default
100, `retryBatchSize` option 7 and retry fraction 1/2, `ConsumeAll` uses
the option value 5, not `max 5 100 = 100`, so the claimed
`maxBatchSize = max(option, runtime default)` resolution is false. -/
theorem batch_size_resolution_cex :
    ¬ ((resolveBatchSizes 5 7 100 (1/2)).1 = max 5 100 ∧
       (resolveBatchSizes 5 7 100 (1/2)).2 =
         max 7 (ratTrunc ((((max 5 100 : Int)) : ℚ) * (1/2)))) := by
  intro h
  have h1 := h.1
  norm_num [resolveBatchSizes] at h1

/-- Claim C1, amended: `ConsumeAll` resolves `maxBatchSize` to the
`batchSize` option when it is positive and to the runtime default
`BatchRunnerDefaultBatchSize` otherwise, and `retryBatchSize` to the
`retryBatchSize` option when it is positive and to
`int(maxBatchSize × BatchRunnerDefaultRetryBatchFraction)` otherwise. -/
theorem batch_size_resolution (b r d : Int) (f : ℚ) :
    (resolveBatchSizes b r d f).1 = (if 0 < b then b else d) ∧
    (resolveBatchSizes b r d f).2 =
      (if 0 < r then r else ratTrunc (((if 0 < b then b else d : Int)) * f)) := by
  constructor
  · simp only [resolveBatchSizes]
    rcases le_or_lt b 0 with h | h
    · rw [if_pos h, if_neg (not_lt.mpr h)]
    · rw [if_neg (not_le.mpr h), if_pos h]
  · simp only [resolveBatchSizes]
    rcases le_or_lt r 0 with hr | hr
    · rw [if_pos hr, if_neg (not_lt.mpr hr)]
      rcases le_or_lt b 0 with h | h
      · rw [if_pos h, if_neg (not_lt.mpr h)]
      · rw [if_neg (not_le.mpr h), if_pos h]
    · rw [if_neg (not_le.mpr hr), if_pos hr]

/-- Claim C2: `accumulate` sums the `consumed`, `skipped`, `processed`,
`notReadyReadded`, `retryScheduled` and `deadLettered` fields, but it
leaves the receiver's `failed` field unchanged instead of adding the
argument's — at the failing input (zero receiver, argument with
`failed = 1`) the result's `failed` is 0, not 1, so the accumulation does
not cover every counter field. -/
theorem counters_accumulate_fields :
    (∀ a b : BatchCounters,
        (a.accumulate b).consumed = a.consumed + b.consumed ∧
        (a.accumulate b).skipped = a.skipped + b.skipped ∧
        (a.accumulate b).processed = a.processed + b.processed ∧
        (a.accumulate b).notReadyReadded = a.notReadyReadded + b.notReadyReadded ∧
        (a.accumulate b).retryScheduled = a.retryScheduled + b.retryScheduled ∧
        (a.accumulate b).deadLettered = a.deadLettered + b.deadLettered ∧
        (a.accumulate b).failed = a.failed) ∧
    (BatchCounters.empty.accumulate ⟨0, 0, 0, 0, 0, 0, 1⟩).failed = 0 := by
  refine ⟨fun a b => ?_, rfl⟩
  simp [BatchCounters.accumulate]

/-- Claim C3, counterexample: parsing the unrecognized mode string
`"nonsense"` does not succeed with the `Unknown` value — `Parse` returns
a parse error, because `ModeOption.ParseFunc` pairs the `Unknown` value
with a non-nil error. -/
theorem mode_unknown_string_cex :
    modeOptionParse (.str "nonsense") =
      .error "failed to parse mode option: unknown mode: nonsense" := rfl

/-- Claim C3, amended: for a string other than "stream" and "batch" the
mode `ParseFunc` yields the `Unknown` value together with a non-nil
error, so option parsing fails with a parse error (not a successful parse
yielding `Unknown`); for every non-string input parsing likewise fails
with a parse error, again with `Unknown` as the value component. -/
theorem mode_option_parsing :
    (∀ s : String, s ≠ "stream" → s ≠ "batch" →
        modeParseFunc (.str s) = (.unknown, some ("unknown mode: " ++ s)) ∧
        ∃ e, modeOptionParse (.str s) = .error e) ∧
    (∀ i : Int, (modeParseFunc (.int i)).1 = .unknown ∧
        ∃ e, modeOptionParse (.int i) = .error e) ∧
    (∀ b : Bool, (modeParseFunc (.bool b)).1 = .unknown ∧
        ∃ e, modeOptionParse (.bool b) = .error e) ∧
    (∀ l : List String, (modeParseFunc (.strList l)).1 = .unknown ∧
        ∃ e, modeOptionParse (.strList l) = .error e) ∧
    ((modeParseFunc .other).1 = .unknown ∧
        ∃ e, modeOptionParse .other = .error e) := by
  refine ⟨fun s h1 h2 => ⟨?_, ?_⟩, fun i => ⟨rfl, ⟨_, rfl⟩⟩,
    fun b => ⟨rfl, ⟨_, rfl⟩⟩, fun l => ⟨rfl, ⟨_, rfl⟩⟩, rfl, ⟨_, rfl⟩⟩
  · simp [modeParseFunc, h1, h2]
  · simp only [modeOptionParse, modeParseFunc, if_neg h1, if_neg h2]
    exact ⟨_, rfl⟩

/-- Claim C3, amended, witness: the concrete unrecognized string "xyz"
fails to parse. -/
theorem mode_option_parsing_witness :
    modeParseFunc (.str "xyz") = (.unknown, some ("unknown mode: " ++ "xyz")) ∧
    ∃ e, modeOptionParse (.str "xyz") = .error e :=
  mode_option_parsing.1 "xyz" (by decide) (by decide)

/-- Claim C7: applying the mutator parsed from the string list
`["a","b"]` and then the mutator parsed from the string `"c"` to the same
fresh `StreamOptions` yields the primary-key set `{a,b,c}`; parsing the
empty string succeeds with a mutator that changes nothing; and every
non-string, non-string-slice input fails to parse. -/
theorem primary_key_accumulation :
    primaryKeyGet (applyParsed (primaryKeyOptionParse (.str "c"))
        (applyParsed (primaryKeyOptionParse (.strList ["a", "b"])) StreamOptions.empty)) =
      ({"a", "b", "c"} : Finset String) ∧
    (∃ f, primaryKeyOptionParse (.str "") = .ok f ∧ ∀ so : StreamOptions, f so = so) ∧
    (∀ i : Int, ∃ e, primaryKeyOptionParse (.int i) = .error e) ∧
    (∀ b : Bool, ∃ e, primaryKeyOptionParse (.bool b) = .error e) ∧
    (∃ e, primaryKeyOptionParse .other = .error e) := by
  refine ⟨by decide, ⟨fun options => options, rfl, fun so => rfl⟩,
    fun i => ⟨_, rfl⟩, fun b => ⟨_, rfl⟩, ⟨_, rfl⟩⟩

/-- Claim C8, helper: the metadata scan reacts exactly to the first
metadata entry of the subscribed topic. -/
theorem checkPartitionsCount_eq_of_meta (meta : List (String × Nat))
    (topicId : String) (n : Nat) (h : metaPartitions meta topicId = some n) :
    checkPartitionsCount meta topicId =
      (if n > 1 then
        .error "Topic has more than 1 partition. Batch Consumer supports only topics with a single partition"
      else .ok ()) := by
  induction meta with
  | nil => simp [metaPartitions] at h
  | cons kv rest ih =>
    obtain ⟨t, parts⟩ := kv
    by_cases ht : t = topicId
    · simp only [metaPartitions, if_pos ht, Option.some.injEq] at h
      subst h
      simp [checkPartitionsCount, ht]
    · simp only [metaPartitions, if_neg ht] at h
      simpa [checkPartitionsCount, ht] using ih h

/-- Claim C8: when the topic's metadata reports `n ≥ 2` partitions the
construction-time partition check of `NewAbstractBatchConsumer` fails
with the invalid-partition-count error (so no consumer is built), and
with a single-partition topic the check passes. -/
theorem single_partition_guard (meta : List (String × Nat)) (topicId : String)
    (n : Nat) (h : metaPartitions meta topicId = some n) :
    (2 ≤ n → ∃ e, checkPartitionsCount meta topicId = .error e) ∧
    (n = 1 → checkPartitionsCount meta topicId = .ok ()) := by
  constructor
  · intro h2
    rw [checkPartitionsCount_eq_of_meta meta topicId n h, if_pos (by omega)]
    exact ⟨_, rfl⟩
  · intro h1
    rw [checkPartitionsCount_eq_of_meta meta topicId n h, if_neg (by omega)]

/-- Claim C8, witness: a two-partition topic fails the check, a
one-partition topic passes it. -/
theorem single_partition_guard_witness :
    (∃ e, checkPartitionsCount [("t", 2)] "t" = .error e) ∧
    checkPartitionsCount [("t1", 1)] "t1" = .ok () :=
  ⟨(single_partition_guard [("t", 2)] "t" 2 (by decide)).1 (by decide),
   (single_partition_guard [("t1", 1)] "t1" 1 (by decide)).2 rfl⟩

/-- Invariant of the batch loop's mutable locals: an open transaction has
recorded first and last positions, a consumed message implies an open
transaction, and the named error can only be the unchecked
`QueryWatermarkOffsets` result. -/
def LoopInv (st : LoopState) : Prop :=
  (st.txOpened = true → st.firstPosition.isSome ∧ st.lastPosition.isSome) ∧
  (1 ≤ st.counters.consumed → st.txOpened = true) ∧
  (st.namedErr = none ∨ st.namedErr = some .queryFailed)

/-- The cleanup-relevant property of a loop exit: a mid-batch failure
(produce, group metadata, offsets, or commit) can only be reported with a
recorded first position, an open uncommitted transaction. -/
def CleanErr (r : BodyResult) : Prop :=
  (r.err = some .produceFailed ∨ r.err = some .groupMetadataFailed ∨
   r.err = some .sendOffsetsFailed ∨ r.err = some .commitFailed) →
  r.firstPosition.isSome ∧ r.txOpened = true ∧ r.committed = false

/-- A naked return never reports a mid-batch failure. -/
theorem nakedReturn_cleanErr (st : LoopState) (h : LoopInv st) :
    CleanErr (nakedReturn st) := by
  intro hc
  rcases h.2.2 with h1 | h1 <;> simp [nakedReturn, h1] at hc

/-- The commit section preserves the cleanup property. -/
theorem finishLoop_cleanErr (env : RetryEnv) (st : LoopState) (h : LoopInv st) :
    CleanErr (finishLoop env st) := by
  intro hc
  unfold finishLoop at hc ⊢
  by_cases htx : st.txOpened = true
  · simp only [htx, if_true] at hc ⊢
    by_cases hgm : env.groupMetadataOk = true
    · simp only [hgm, if_true] at hc ⊢
      by_cases hso : env.sendOffsetsOk = true
      · simp only [hso, if_true] at hc ⊢
        by_cases hcm : env.commitOk = true
        · simp only [hcm, if_true] at hc
          simp at hc
        · simp only [if_neg hcm] at hc ⊢
          exact ⟨(h.1 htx).1, by trivial, by trivial⟩
      · simp only [if_neg hso] at hc ⊢
        exact ⟨(h.1 htx).1, by trivial, by trivial⟩
    · simp only [if_neg hgm] at hc ⊢
      exact ⟨(h.1 htx).1, by trivial, by trivial⟩
  · simp only [if_neg htx] at hc ⊢
    exact nakedReturn_cleanErr st h hc

/-- Continuing the loop from the classification step preserves the loop
invariant. -/
theorem classifyAndProduce_inl_inv (env : RetryEnv) (st : LoopState)
    (m : KMessage) (st2 : LoopState) (htx : st.txOpened = true)
    (hfs : st.firstPosition.isSome) (hls : st.lastPosition.isSome)
    (hne : st.namedErr = none ∨ st.namedErr = some .queryFailed)
    (hs : classifyAndProduce env st m = .inl st2) : LoopInv st2 := by
  simp only [classifyAndProduce] at hs
  by_cases ho : getKafkaHeader m originalTopicHeader = ""
  · rw [if_pos ho] at hs
    cases hs
    exact ⟨fun _ => ⟨hfs, hls⟩, fun _ => htx, hne⟩
  · rw [if_neg ho] at hs
    cases hri : getKafkaIntHeader m retriesCountHeader with
    | none =>
      simp only [hri] at hs
      cases hs
      exact ⟨fun _ => ⟨hfs, hls⟩, fun _ => htx, hne⟩
    | some retries =>
      simp only [hri] at hs
      by_cases hp : env.produceOk st.produceIdx = true
      · rw [if_pos hp] at hs
        cases hs
        exact ⟨fun _ => ⟨hfs, hls⟩, fun _ => htx, hne⟩
      · rw [if_neg hp] at hs
        cases hs

/-- An early return from the classification step satisfies the cleanup
property. -/
theorem classifyAndProduce_inr_cleanErr (env : RetryEnv) (st : LoopState)
    (m : KMessage) (r : BodyResult) (htx : st.txOpened = true)
    (hfs : st.firstPosition.isSome)
    (hs : classifyAndProduce env st m = .inr r) : CleanErr r := by
  simp only [classifyAndProduce] at hs
  by_cases ho : getKafkaHeader m originalTopicHeader = ""
  · rw [if_pos ho] at hs
    cases hs
  · rw [if_neg ho] at hs
    cases hri : getKafkaIntHeader m retriesCountHeader with
    | none =>
      simp only [hri] at hs
      cases hs
    | some retries =>
      simp only [hri] at hs
      by_cases hp : env.produceOk st.produceIdx = true
      · rw [if_pos hp] at hs
        cases hs
      · rw [if_neg hp] at hs
        cases hs
        exact fun _ => ⟨hfs, htx, rfl⟩

/-- Processing one consumed message preserves the loop invariant when it
continues the loop. -/
theorem stepMessage_inl_inv (env : RetryEnv) (st : LoopState) (m : KMessage)
    (st2 : LoopState) (h : LoopInv st)
    (hs : stepMessage env st m = .inl st2) : LoopInv st2 := by
  simp only [stepMessage] at hs
  by_cases h1 : st.counters.consumed + 1 = 1
  · rw [if_pos h1] at hs
    by_cases hb : env.beginTxOk = true
    · rw [if_pos hb] at hs
      refine classifyAndProduce_inl_inv env _ m st2 ?_ ?_ ?_ ?_ hs
      · rfl
      · rfl
      · rfl
      · exact h.2.2
    · rw [if_neg hb] at hs
      cases hs
  · rw [if_neg h1] at hs
    have htx : st.txOpened = true := h.2.1 (by omega)
    refine classifyAndProduce_inl_inv env _ m st2 ?_ ?_ ?_ ?_ hs
    · exact htx
    · exact (h.1 htx).1
    · rfl
    · exact h.2.2

/-- An early return while processing one consumed message satisfies the
cleanup property. -/
theorem stepMessage_inr_cleanErr (env : RetryEnv) (st : LoopState)
    (m : KMessage) (r : BodyResult) (h : LoopInv st)
    (hs : stepMessage env st m = .inr r) : CleanErr r := by
  simp only [stepMessage] at hs
  by_cases h1 : st.counters.consumed + 1 = 1
  · rw [if_pos h1] at hs
    by_cases hb : env.beginTxOk = true
    · rw [if_pos hb] at hs
      refine classifyAndProduce_inr_cleanErr env _ m r ?_ ?_ hs
      · rfl
      · rfl
    · rw [if_neg hb] at hs
      cases hs
      intro hc
      simp at hc
  · rw [if_neg h1] at hs
    have htx : st.txOpened = true := h.2.1 (by omega)
    refine classifyAndProduce_inr_cleanErr env _ m r ?_ ?_ hs
    · exact htx
    · exact (h.1 htx).1

/-- Every exit of the batch loop satisfies the cleanup property. -/
theorem runLoop_cleanErr (env : RetryEnv) :
    ∀ fuel (st : LoopState), LoopInv st → CleanErr (runLoop env fuel st) := by
  intro fuel
  induction fuel with
  | zero => exact fun st h => finishLoop_cleanErr env st h
  | succ fuel ih =>
    intro st h
    rw [runLoop]
    by_cases hr : env.retired st.i = true
    · simp only [if_pos hr]
      exact nakedReturn_cleanErr st h
    · simp only [if_neg hr]
      by_cases hw : st.lastPosition = some (env.highOffset - 1)
      · simp only [if_pos hw]
        exact finishLoop_cleanErr env _ ⟨h.1, h.2.1, h.2.2⟩
      · simp only [if_neg hw]
        cases hread : env.reads st.readIdx with
        | timedOut => exact finishLoop_cleanErr env _ ⟨h.1, h.2.1, h.2.2⟩
        | fatal =>
          intro hc
          simp at hc
        | msg m =>
          cases hs : stepMessage env { st with readIdx := st.readIdx + 1 } m with
          | inl st2 =>
            simp only [hs]
            refine ih st2 (stepMessage_inl_inv env _ m st2 ?_ hs)
            exact ⟨h.1, h.2.1, h.2.2⟩
          | inr r =>
            simp only [hs]
            refine stepMessage_inr_cleanErr env _ m r ?_ hs
            exact ⟨h.1, h.2.1, h.2.2⟩

/-- The cleanup on an error exit keeps the error and exposes the
closure-visible locals. -/
theorem applyCleanup_err (b : BodyResult) : (applyCleanup b).err = b.err := by
  unfold applyCleanup
  cases b.err <;> rfl

/-- Claim C4: whenever a retry batch fails after its first message was
consumed — the producer `Produce`, `GetConsumerGroupMetadata`,
`SendOffsetsToTransaction` or `CommitTransaction` step reports the batch
error — the deferred cleanup seeks the consumer back to the first
consumed offset, aborts the open producer transaction, no offsets are
committed, and the batch reports `nextBatch = false`: the source offset
position and the downstream topics are left unchanged. -/
theorem retry_batch_error_cleanup (env : RetryEnv) (n : Nat) (e : BatchErr)
    (herr : (processBatchImpl env n).err = some e)
    (he : e = .produceFailed ∨ e = .groupMetadataFailed ∨
      e = .sendOffsetsFailed ∨ e = .commitFailed) :
    (∃ p, (processBatchImpl env n).firstPosition = some p ∧
      (processBatchImpl env n).seeks = [p]) ∧
    (processBatchImpl env n).aborted = true ∧
    (processBatchImpl env n).committed = false ∧
    (processBatchImpl env n).nextBatch = false := by
  have hinv : LoopInv (initLoopState env) := by
    refine ⟨fun hx => ?_, fun hx => ?_, ?_⟩
    · simp [initLoopState] at hx
    · simp [initLoopState, BatchCounters.empty] at hx
    · by_cases hq : env.queryErr = true <;> simp [initLoopState, hq]
  have hcl := runLoop_cleanErr env n (initLoopState env) hinv
  have hb : (runLoop env n (initLoopState env)).err = some e := by
    have : (processBatchImpl env n).err = (runLoop env n (initLoopState env)).err :=
      applyCleanup_err _
    rw [← this, herr]
  have hres := hcl (by rcases he with h | h | h | h <;> rw [← h] <;> simp [hb, h])
  obtain ⟨hfs, htx, hcm⟩ := hres
  obtain ⟨p, hp⟩ := Option.isSome_iff_exists.mp hfs
  have hmain : processBatchImpl env n =
      applyCleanup (runLoop env n (initLoopState env)) := rfl
  refine ⟨⟨p, ?_, ?_⟩, ?_, ?_, ?_⟩ <;>
    rw [hmain] <;> unfold applyCleanup <;> simp [hb, hp, htx, hcm]

/-- Claim C10: after `Retire`, `ConsumeAll` returns empty counters and an
error immediately — it does not lease the destination, does not run any
batch (so reads no message), and leaves the whole consumer state,
including the idle and paused flags, unchanged; the retired flag itself
stays set. -/
theorem retired_consumeAll_noop (st : ConsumerState) (env : ConsumeEnv) (fuel : Nat) :
    (retire st).retired = true ∧
    consumeAll (retire st) env fuel =
      { counters := BatchCounters.empty, err := some "Consumer is retired"
        leased := false, batchCalls := 0, finalState := retire st
        fuelExhausted := false } :=
  ⟨rfl, rfl⟩

/-- Base witness environment for the retry consumer theorems: a healthy
bus, retry cutoff 5, clock at 50, and an ISO parse that recognizes one
fixed future timestamp. -/
def baseRetryEnv : RetryEnv :=
  { queryErr := false, highOffset := 1000
    reads := fun _ => .timedOut
    beginTxOk := true, produceOk := fun _ => true
    groupMetadataOk := true, sendOffsetsOk := true, commitOk := true
    retired := fun _ => false
    parseTime := fun s => if s = "2030-01-01T00:00:00Z" then some ⟨false, 100⟩ else none
    now := 50, messagesRetryCount := 5, destinationId := "dest"
    topicId := "in.id.dest.m.retry.t._all_" }

/-- Witness environment where every `Produce` call fails. -/
def produceFailEnv : RetryEnv :=
  { baseRetryEnv with
    produceOk := fun _ => false
    reads := fun n =>
      if n = 0 then .msg ⟨40, "k", "v", [("original_topic", "orig"), ("retries", "2")]⟩
      else .timedOut }

/-- Claim C4, witness: with one consumed message and a failing `Produce`,
the batch seeks back to offset 40, aborts, commits nothing and reports no
next batch. -/
theorem retry_batch_error_cleanup_witness :
    (processBatchImpl produceFailEnv 3).err = some .produceFailed ∧
    ((∃ p, (processBatchImpl produceFailEnv 3).firstPosition = some p ∧
        (processBatchImpl produceFailEnv 3).seeks = [p]) ∧
      (processBatchImpl produceFailEnv 3).aborted = true ∧
      (processBatchImpl produceFailEnv 3).committed = false ∧
      (processBatchImpl produceFailEnv 3).nextBatch = false) :=
  ⟨by decide, retry_batch_error_cleanup produceFailEnv 3 .produceFailed (by decide) (Or.inl rfl)⟩

/-- Claim C5: a message whose `retries` header parses to a value at or
above `MessagesRetryCount` is classified to the destination dead topic —
not its original topic — with the retries count left unchanged and a
`deadLettered` (not `retryScheduled`) counter delta; the stream
consumer's failure path routes such a message to the dead topic with
status `deadLettered` as well. -/
theorem dead_letter_cutoff (env : RetryEnv) (m : KMessage) (originalTopic : String)
    (retries : Int) (d t : String) (backoffISO : Int → String)
    (hret : getKafkaIntHeader m retriesCountHeader = some retries)
    (hcut : env.messagesRetryCount ≤ retries) :
    (classifyMessage env m originalTopic retries).topic =
        makeTopicId env.destinationId deadTopicMode allTablesToken ∧
    (classifyMessage env m originalTopic retries).newRetries = retries ∧
    (classifyMessage env m originalTopic retries).single =
        { BatchCounters.empty with deadLettered := 1 } ∧
    (originalTopic ≠ makeTopicId env.destinationId deadTopicMode allTablesToken →
      (classifyMessage env m originalTopic retries).topic ≠ originalTopic) ∧
    (streamFailurePath d t env.messagesRetryCount m backoffISO).1.topic =
        makeTopicId d deadTopicMode allTablesToken ∧
    (streamFailurePath d t env.messagesRetryCount m backoffISO).2 = "deadLettered" := by
  have hge : retries ≥ env.messagesRetryCount := hcut
  have hclass : classifyMessage env m originalTopic retries =
      { topic := makeTopicId env.destinationId deadTopicMode allTablesToken
        extraHeaders := []
        newRetries := retries
        single := { BatchCounters.empty with deadLettered := 1 } } := by
    simp [classifyMessage, hge]
  have hsf : (getKafkaIntHeader m retriesCountHeader).getD 0 = retries := by
    rw [hret]
    rfl
  refine ⟨by rw [hclass], by rw [hclass], by rw [hclass], ?_, ?_, ?_⟩
  · intro hne
    rw [hclass]
    exact Ne.symm hne
  · simp [streamFailurePath, hsf, hge]
  · simp [streamFailurePath, hsf, hge]

/-- A message already at the retry cutoff. -/
def cutoffMsg : KMessage :=
  ⟨40, "k", "v", [("original_topic", "orig"), ("retries", "5")]⟩

/-- Claim C5, witness: at `retries = 5 = MessagesRetryCount` the message
is routed to the dead topic of the destination, unchanged. -/
theorem dead_letter_cutoff_witness :
    (classifyMessage baseRetryEnv cutoffMsg "orig" 5).topic =
        makeTopicId baseRetryEnv.destinationId deadTopicMode allTablesToken ∧
    (classifyMessage baseRetryEnv cutoffMsg "orig" 5).newRetries = 5 ∧
    (classifyMessage baseRetryEnv cutoffMsg "orig" 5).single =
        { BatchCounters.empty with deadLettered := 1 } ∧
    ("orig" ≠ makeTopicId baseRetryEnv.destinationId deadTopicMode allTablesToken →
      (classifyMessage baseRetryEnv cutoffMsg "orig" 5).topic ≠ "orig") ∧
    (streamFailurePath "dest" "top" baseRetryEnv.messagesRetryCount cutoffMsg
        (fun _ => "iso")).1.topic =
      makeTopicId "dest" deadTopicMode allTablesToken ∧
    (streamFailurePath "dest" "top" baseRetryEnv.messagesRetryCount cutoffMsg
        (fun _ => "iso")).2 = "deadLettered" :=
  dead_letter_cutoff baseRetryEnv cutoffMsg "orig" 5 "dest" "top" (fun _ => "iso")
    (by decide) (by decide)

/-- Claim C6: a message below the retry cutoff whose `retry_time` header
parses to a non-zero future instant is classified back to the consumer's
own retry topic, the produced `retry_time` header carries exactly the
original header bytes, the retries count is unchanged, and the counter
delta is `notReadyReadded` (not `retryScheduled`). -/
theorem not_ready_requeue (env : RetryEnv) (m : KMessage) (originalTopic : String)
    (retries ti : Int) (hlt : retries < env.messagesRetryCount)
    (hp : env.parseTime (getKafkaHeader m retryTimeHeader) = some ⟨false, ti⟩)
    (hfut : env.now < ti) :
    classifyMessage env m originalTopic retries =
      { topic := env.topicId
        extraHeaders := [(retryTimeHeader, getKafkaHeader m retryTimeHeader)]
        newRetries := retries
        single := { BatchCounters.empty with notReadyReadded := 1 } } := by
  have h1 : ¬(retries ≥ env.messagesRetryCount) := not_le.mpr hlt
  have h2 : isTimeToRetry env m = false := by
    simp [isTimeToRetry, hp]
    omega
  simp [classifyMessage, h1, h2]

/-- A message with a future retry deadline. -/
def notReadyMsg : KMessage :=
  ⟨40, "k", "v",
    [("original_topic", "orig"), ("retries", "2"),
     ("retry_time", "2030-01-01T00:00:00Z")]⟩

/-- Claim C6, witness: the future-dated message is requeued to the retry
topic with its deadline bytes intact. -/
theorem not_ready_requeue_witness :
    classifyMessage baseRetryEnv notReadyMsg "orig" 2 =
      { topic := baseRetryEnv.topicId
        extraHeaders := [(retryTimeHeader, getKafkaHeader notReadyMsg retryTimeHeader)]
        newRetries := 2
        single := { BatchCounters.empty with notReadyReadded := 1 } } :=
  not_ready_requeue baseRetryEnv notReadyMsg "orig" 2 100 (by decide) (by decide) (by decide)

/-- Witness environment whose only message lacks the `original_topic`
header. -/
def skipHeaderEnv : RetryEnv :=
  { baseRetryEnv with
    reads := fun n =>
      if n = 0 then .msg ⟨40, "k", "v", [("retries", "2")]⟩ else .timedOut }

/-- Witness environment whose only message has a malformed `retries`
header. -/
def badRetriesEnv : RetryEnv :=
  { baseRetryEnv with
    reads := fun n =>
      if n = 0 then .msg ⟨40, "k", "v", [("original_topic", "orig"), ("retries", "x")]⟩
      else .timedOut }

/-- Claim C9: on a batch whose single message is missing `original_topic`
(respectively carries a malformed `retries` header), the batch finishes
without error, produces nothing for that message, and still commits the
offset 41 past it — but the returned `skipped` counter is 0, not 1: the
source increments `skipped` only on the per-message `singleCount`, which
the `continue` discards before it is ever accumulated. -/
theorem classification_error_skip :
    ((processBatchImpl skipHeaderEnv 3).err = none ∧
     (processBatchImpl skipHeaderEnv 3).produced = [] ∧
     (processBatchImpl skipHeaderEnv 3).committed = true ∧
     (processBatchImpl skipHeaderEnv 3).committedOffset = some 41 ∧
     (processBatchImpl skipHeaderEnv 3).counters.consumed = 1 ∧
     (processBatchImpl skipHeaderEnv 3).counters.skipped = 0) ∧
    ((processBatchImpl badRetriesEnv 3).err = none ∧
     (processBatchImpl badRetriesEnv 3).produced = [] ∧
     (processBatchImpl badRetriesEnv 3).committed = true ∧
     (processBatchImpl badRetriesEnv 3).committedOffset = some 41 ∧
     (processBatchImpl badRetriesEnv 3).counters.consumed = 1 ∧
     (processBatchImpl badRetriesEnv 3).counters.skipped = 0) := by decide

end Bulker
